import Mathlib

set_option maxRecDepth 4000

/-!
Shallow embedding of the medical-research-fetcher core
(src/lib/fetchers/entrez/pubmed/{types,parsers,models}.py,
src/lib/fetchers/entrez/base.py, src/lib/utils/rate_limit.py,
src/lib/processors/article_processor.py) and proofs about it.

Python dynamic values are modelled by `PyVal`; Python `None` is `PyVal.jnull`
where a value of unknown type sits, and `Option` where the source's types are
definite.  Python exceptions are modelled by `Except PyErr`.  XML element
trees (xml.etree.ElementTree) are modelled by `XElem`.
-/

/-- Dynamic Python/JSON value: None, str, int, bool, list, dict. -/
inductive PyVal where
  | jnull : PyVal
  | jstr : String → PyVal
  | jnum : Int → PyVal
  | jbool : Bool → PyVal
  | jarr : List PyVal → PyVal
  | jobj : List (String × PyVal) → PyVal
deriving Repr

mutual
/-- Structural equality test on dynamic values (Python `==` where used). -/
def PyVal.beq : PyVal → PyVal → Bool
  | .jnull, .jnull => true
  | .jstr a, .jstr b => a == b
  | .jnum a, .jnum b => a == b
  | .jbool a, .jbool b => a == b
  | .jarr a, .jarr b => PyVal.beqList a b
  | .jobj a, .jobj b => PyVal.beqObj a b
  | _, _ => false

/-- Elementwise equality test on value lists. -/
def PyVal.beqList : List PyVal → List PyVal → Bool
  | [], [] => true
  | a :: as, b :: bs => PyVal.beq a b && PyVal.beqList as bs
  | _, _ => false

/-- Entrywise equality test on dict field lists. -/
def PyVal.beqObj : List (String × PyVal) → List (String × PyVal) → Bool
  | [], [] => true
  | (k1, v1) :: as, (k2, v2) :: bs =>
      k1 == k2 && PyVal.beq v1 v2 && PyVal.beqObj as bs
  | _, _ => false
end

instance : BEq PyVal := ⟨PyVal.beq⟩

/-- Python exception kinds that the embedded code can raise. -/
inductive PyErr where
  | valueError : String → PyErr
  | attributeError : PyErr
  | typeError : PyErr
  | stopIteration : PyErr
  | indexError : PyErr
deriving DecidableEq, Repr

/-- Python truthiness (`bool(v)`) on dynamic values. -/
def pyTruthy : PyVal → Bool
  | .jnull => false
  | .jstr s => s ≠ ""
  | .jnum n => n ≠ 0
  | .jbool b => b
  | .jarr xs => !xs.isEmpty
  | .jobj fs => !fs.isEmpty

/-- Python truthiness of an `Optional[str]` value. -/
def optTruthy : Option String → Bool
  | none => false
  | some s => s ≠ ""

/-- Lookup in a Python dict modelled as an association list (`d[k]` presence). -/
def dictLookup (fs : List (String × PyVal)) (k : String) : Option PyVal :=
  match fs.find? (fun p => p.1 == k) with
  | some p => some p.2
  | none => none

/-- Python `dict.get(k, default)`. -/
def dictGet (fs : List (String × PyVal)) (k : String) (d : PyVal) : PyVal :=
  match dictLookup fs k with
  | some v => v
  | none => d

/-- Python `iter(v)` for a `for` loop: lists yield elements, dicts yield their
keys, strings yield their characters; other values raise `TypeError`. -/
def pyIter : PyVal → Except PyErr (List PyVal)
  | .jarr xs => .ok xs
  | .jobj fs => .ok (fs.map (fun p => .jstr p.1))
  | .jstr s => .ok (s.data.map (fun c => .jstr c.toString))
  | _ => .error .typeError

/-- An XML element tree node: tag, attributes, text, children
(xml.etree.ElementTree.Element). -/
inductive XElem where
  | mk (tag : String) (attrs : List (String × String)) (text : Option String)
       (children : List XElem)
deriving Repr

/-- Tag of an element. -/
def XElem.tag : XElem → String
  | .mk t _ _ _ => t

/-- Attribute list of an element. -/
def XElem.attrs : XElem → List (String × String)
  | .mk _ a _ _ => a

/-- Text of an element (`elem.text`). -/
def XElem.text : XElem → Option String
  | .mk _ _ tx _ => tx

/-- Children of an element. -/
def XElem.children : XElem → List XElem
  | .mk _ _ _ cs => cs

/-- Element attribute access `elem.get(name, default)`. -/
def xattr (e : XElem) (name default : String) : String :=
  match e.attrs.find? (fun p => p.1 == name) with
  | some p => p.2
  | none => default

/-- All direct children with the given tag, in document order
(`elem.findall(tag)`). -/
def findAllChild (e : XElem) (t : String) : List XElem :=
  e.children.filter (fun c => c.tag == t)

/-- First direct child with the given tag (`elem.find(tag)`). -/
def findChild (e : XElem) (t : String) : Option XElem :=
  e.children.find? (fun c => c.tag == t)

mutual
/-- All strict descendants with the given tag in document (DFS pre-) order
(`elem.findall(".//tag")`). -/
def findAllDesc : XElem → String → List XElem
  | .mk _ _ _ children, t => findAllDescList children t

/-- Descendant collection over a child list, preserving document order. -/
def findAllDescList : List XElem → String → List XElem
  | [], _ => []
  | c :: cs, t =>
      (if c.tag == t then [c] else []) ++ findAllDesc c t ++ findAllDescList cs t
end

/-- First strict descendant with the given tag (`elem.find(".//tag")`). -/
def findDesc (e : XElem) (t : String) : Option XElem :=
  (findAllDesc e t).head?

/-- First strict descendant with the given tag carrying attribute `a = v`
(used for `elem.find(".//ArticleDate[@DateType=\"Electronic\"]")`). -/
def findDescAttr (e : XElem) (t a v : String) : Option XElem :=
  ((findAllDesc e t).filter (fun d => xattr d a "" == v)).head?

/-- First match of a two-step descendant path
(`elem.find(".//t1/t2")`: children tagged `t2` of any descendant tagged `t1`). -/
def findDescChild (e : XElem) (t1 t2 : String) : Option XElem :=
  ((findAllDesc e t1).flatMap (fun d => findAllChild d t2)).head?

/-- Safe text extraction `PubMedXMLParser._get_text(element, xpath, default)`:
the matched element's text if the element was found and its text is truthy,
the default otherwise.  The caller passes the already-located element. -/
def getText (found : Option XElem) (default : String) : String :=
  match found with
  | none => default
  | some el =>
      match el.text with
      | none => default
      | some t => if t == "" then default else t

/-- Python `str.isdigit()`: nonempty and all characters are decimal digits. -/
def pyIsDigit (s : String) : Bool :=
  !s.isEmpty && s.data.all Char.isDigit

/-- Digit-group value of a character list: `some` exactly when nonempty and
all decimal digits. -/
def digitsVal? (ds : List Char) : Option Int :=
  if ds.isEmpty || !ds.all Char.isDigit then none
  else some ((ds.foldl (fun acc c => acc * 10 + (c.toNat - 48)) 0 : Nat) : Int)

/-- Python `int(s)` on a string: optional sign and digits after stripping
surrounding whitespace; `none` models `ValueError`. -/
def pyInt? (s : String) : Option Int :=
  match ((s.data.dropWhile Char.isWhitespace).reverse.dropWhile
          Char.isWhitespace).reverse with
  | '-' :: ds => (digitsVal? ds).map (fun n => -n)
  | '+' :: ds => digitsVal? ds
  | ds => digitsVal? ds

/-- Calendar datetime as constructed by `datetime.datetime`. -/
structure DateTime where
  year : Int
  month : Int
  day : Int
  hour : Int
  minute : Int
  second : Int
deriving DecidableEq, Repr

/-- Gregorian leap-year rule used by `datetime`. -/
def isLeap (y : Int) : Bool :=
  y % 4 == 0 && (y % 100 != 0 || y % 400 == 0)

/-- Days in a month of a year, as validated by the `datetime` constructor. -/
def daysInMonth (y m : Int) : Int :=
  if m == 2 then (if isLeap y then 29 else 28)
  else if m == 4 || m == 6 || m == 9 || m == 11 then 30
  else 31

/-- Validity check of `datetime.datetime(y, mo, d, hh, mi, ss)`. -/
def dateTimeValid (y mo d hh mi ss : Int) : Bool :=
  1 ≤ y && y ≤ 9999 && 1 ≤ mo && mo ≤ 12 && 1 ≤ d && d ≤ daysInMonth y mo &&
  0 ≤ hh && hh ≤ 23 && 0 ≤ mi && mi ≤ 59 && 0 ≤ ss && ss ≤ 59

/-- Checked `datetime.datetime(...)` constructor; `none` models `ValueError`. -/
def mkDateTime? (y mo d hh mi ss : Int) : Option DateTime :=
  if dateTimeValid y mo d hh mi ss then some ⟨y, mo, d, hh, mi, ss⟩ else none

/-- Decimal digit character of `n % 10`. -/
def digitChar10 (n : Nat) : Char :=
  Char.ofNat (48 + n % 10)

/-- Two-digit zero-padded decimal rendering. -/
def pad2 (n : Nat) : String :=
  String.mk [digitChar10 (n / 10), digitChar10 n]

/-- Four-digit zero-padded decimal rendering. -/
def pad4 (n : Nat) : String :=
  String.mk [digitChar10 (n / 1000), digitChar10 (n / 100), digitChar10 (n / 10),
             digitChar10 n]

/-- Python `datetime.isoformat()` for whole-second datetimes. -/
def isoformat (dt : DateTime) : String :=
  pad4 dt.year.toNat ++ "-" ++ pad2 dt.month.toNat ++ "-" ++ pad2 dt.day.toNat ++
  "T" ++ pad2 dt.hour.toNat ++ ":" ++ pad2 dt.minute.toNat ++ ":" ++
  pad2 dt.second.toNat

/-- Split a character list on a separator character. -/
def splitOnChar (sep : Char) : List Char → List (List Char)
  | [] => [[]]
  | c :: cs =>
      let rest := splitOnChar sep cs
      if c == sep then [] :: rest
      else
        match rest with
        | [] => [[c]]
        | g :: gs => (c :: g) :: gs

/-- Parse a nonempty all-digit character group as a natural number. -/
def digitsToNat? (l : List Char) : Option Nat :=
  if l.isEmpty || !l.all Char.isDigit then none
  else some (l.foldl (fun acc c => acc * 10 + (c.toNat - 48)) 0)

/-- Python `datetime.fromisoformat` restricted to the forms this program
produces: `YYYY-MM-DD` or `YYYY-MM-DDTHH:MM:SS`; `none` models `ValueError`. -/
def fromisoformat? (s : String) : Option DateTime :=
  match splitOnChar 'T' s.data with
  | [dpart] =>
      (match splitOnChar '-' dpart with
       | [ys, ms, ds] =>
          match digitsToNat? ys, digitsToNat? ms, digitsToNat? ds with
          | some y, some mo, some d => mkDateTime? y mo d 0 0 0
          | _, _, _ => none
       | _ => none)
  | [dpart, tpart] =>
      (match splitOnChar '-' dpart, splitOnChar ':' tpart with
       | [ys, ms, ds], [hs, mis, ss] =>
          match digitsToNat? ys, digitsToNat? ms, digitsToNat? ds,
                digitsToNat? hs, digitsToNat? mis, digitsToNat? ss with
          | some y, some mo, some d, some hh, some mi, some sec =>
              mkDateTime? y mo d hh mi sec
          | _, _, _, _, _, _ => none
       | _, _ => none)
  | _ => none

/-- ASCII lowercase of one character (case-insensitive `%b` matching). -/
def asciiLowerChar (c : Char) : Char :=
  if 'A' ≤ c ∧ c ≤ 'Z' then Char.ofNat (c.toNat + 32) else c

/-- Month number of a lowercase English month abbreviation (`%b`). -/
def monthAbbrev? (s : String) : Option Nat :=
  if s == "jan" then some 1 else if s == "feb" then some 2
  else if s == "mar" then some 3 else if s == "apr" then some 4
  else if s == "may" then some 5 else if s == "jun" then some 6
  else if s == "jul" then some 7 else if s == "aug" then some 8
  else if s == "sep" then some 9 else if s == "oct" then some 10
  else if s == "nov" then some 11 else if s == "dec" then some 12
  else none

/-- Python `datetime.strptime(s, "%Y/%m/%d %H:%M")`; `none` models
`ValueError`. -/
def strptimeSort? (s : String) : Option DateTime :=
  match splitOnChar ' ' s.data with
  | [dpart, tpart] =>
      (match splitOnChar '/' dpart, splitOnChar ':' tpart with
       | [ys, ms, ds], [hs, mis] =>
          match digitsToNat? ys, digitsToNat? ms, digitsToNat? ds,
                digitsToNat? hs, digitsToNat? mis with
          | some y, some mo, some d, some hh, some mi =>
              mkDateTime? y mo d hh mi 0
          | _, _, _, _, _ => none
       | _, _ => none)
  | _ => none

/-- Python `datetime.strptime(s, "%Y %b")`; `none` models `ValueError`. -/
def strptimeYearMon? (s : String) : Option DateTime :=
  match splitOnChar ' ' s.data with
  | [ys, mons] =>
      (match digitsToNat? ys,
             monthAbbrev? (String.mk (mons.map asciiLowerChar)) with
       | some y, some mo => mkDateTime? y mo 1 0 0 0
       | _, _ => none)
  | _ => none

/-!
Embedding of src/lib/fetchers/entrez/pubmed/types.py.
-/

/-- Research grant record (`PubMedGrant`). -/
structure PubMedGrant where
  grant_id : Option String
  acronym : Option String
  agency : Option String
  country : Option String
deriving DecidableEq, Repr

/-- Reference citation record (`PubMedReference`). -/
structure PubMedReference where
  citation : String
  pmid : Option String
  doi : Option String
  pmc_id : Option String
deriving DecidableEq, Repr

/-- Author record (`PubMedAuthor`). -/
structure PubMedAuthor where
  last_name : String
  fore_name : Option String
  initials : Option String
  affiliations : List String
deriving DecidableEq, Repr

/-- Full-name rendering (`PubMedAuthor.get_full_name`): "Last, Fore" when the
forename is truthy, else "Last, Initials" when the initials are truthy, else
the last name alone. -/
def PubMedAuthor.get_full_name (a : PubMedAuthor) : String :=
  if optTruthy a.fore_name then a.last_name ++ ", " ++ a.fore_name.getD ""
  else if optTruthy a.initials then a.last_name ++ ", " ++ a.initials.getD ""
  else a.last_name

/-- Journal record (`PubMedJournal`). -/
structure PubMedJournal where
  title : String
  iso_abbreviation : Option String
  issn : Option String
  volume : Option String
  issue : Option String
deriving DecidableEq, Repr

/-- Date bundle (`PubMedDates`). -/
structure PubMedDates where
  completed : Option DateTime
  revised : Option DateTime
  electronic_pub : Option DateTime
  pub_date : Option DateTime
deriving DecidableEq, Repr

/-- Best-date selection (`PubMedDates.get_best_date`):
pub_date, else electronic_pub, else completed, else revised. -/
def PubMedDates.get_best_date (d : PubMedDates) : Option DateTime :=
  (((d.pub_date).or d.electronic_pub).or d.completed).or d.revised

/-!
Embedding of src/lib/fetchers/entrez/pubmed/parsers.py (`PubMedXMLParser`).
-/

/-- Partial-date resolution (`PubMedXMLParser._parse_date`): reads Year, Month
and Day children of a date element; Month/Day default to 1 when the element is
absent or its text is not all digits.  The `try` block catches `ValueError`
and `AttributeError` only, so `int(year.text)` with a `None` text raises an
uncaught `TypeError`; a Month/Day element whose text is `None` raises an
`AttributeError` inside the block, caught to yield `None`. -/
def parse_date (date_elem : Option XElem) : Except PyErr (Option DateTime) :=
  match date_elem with
  | none => .ok none
  | some de =>
    match findChild de "Year" with
    | none => .ok none
    | some y =>
      match y.text with
      | none => .error .typeError
      | some ytext =>
        .ok (match pyInt? ytext with
          | none => none
          | some yv =>
            match (match findChild de "Month" with
                   | none => some (1 : Int)
                   | some m =>
                     match m.text with
                     | none => none
                     | some mt =>
                        some (if pyIsDigit mt then (pyInt? mt).getD 1 else 1)) with
            | none => none
            | some mv =>
              match (match findChild de "Day" with
                     | none => some (1 : Int)
                     | some d =>
                       match d.text with
                       | none => none
                       | some dt =>
                          some (if pyIsDigit dt then (pyInt? dt).getD 1 else 1)) with
              | none => none
              | some dv => mkDateTime? yv mv dv 0 0 0)

/-- Grant extraction (`PubMedXMLParser.parse_grants`). -/
def parse_grants (article_elem : XElem) : List PubMedGrant :=
  match findDesc article_elem "GrantList" with
  | none => []
  | some grant_list =>
      (findAllChild grant_list "Grant").map (fun grant_elem =>
        { grant_id := some (getText (findChild grant_elem "GrantID") "")
          acronym := some (getText (findChild grant_elem "Acronym") "")
          agency := some (getText (findChild grant_elem "Agency") "")
          country := some (getText (findChild grant_elem "Country") "") })

/-- Ordered (IdType, text) pairs of a reference's ArticleIdList block. -/
def refIdPairs (ref_elem : XElem) : List (String × Option String) :=
  match findChild ref_elem "ArticleIdList" with
  | none => []
  | some article_ids =>
      (findAllChild article_ids "ArticleId").map (fun e =>
        (xattr e "IdType" "", e.text))

/-- Sequential assignment scan of a reference's identifier pairs
(the `for id_elem in article_ids.findall('ArticleId')` loop body). -/
def scanIds : List (String × Option String) →
    Option String × Option String × Option String →
    Option String × Option String × Option String
  | [], acc => acc
  | (ty, v) :: rest, (p, d, c) =>
      if ty == "pubmed" then scanIds rest (v, d, c)
      else if ty == "doi" then scanIds rest (p, v, c)
      else if ty == "pmc" then scanIds rest (p, d, v)
      else scanIds rest (p, d, c)

/-- Single-reference extraction: the body of the `for ref_elem in
ref_list.findall('Reference')` loop of `PubMedXMLParser.parse_references`. -/
def parseReference (ref_elem : XElem) : PubMedReference :=
  let ids := scanIds (refIdPairs ref_elem) (none, none, none)
  { citation := getText (findChild ref_elem "Citation") ""
    pmid := ids.1
    doi := ids.2.1
    pmc_id := ids.2.2 }

/-- Reference extraction (`PubMedXMLParser.parse_references`). -/
def parse_references (article_elem : XElem) : List PubMedReference :=
  match findDesc article_elem "ReferenceList" with
  | none => []
  | some ref_list => (findAllChild ref_list "Reference").map parseReference

/-- Author extraction (`PubMedXMLParser.parse_authors`). -/
def parse_authors (article_elem : XElem) : List PubMedAuthor :=
  match findDesc article_elem "AuthorList" with
  | none => []
  | some author_list =>
      (findAllChild author_list "Author").map (fun author_elem =>
        { last_name := getText (findChild author_elem "LastName") ""
          fore_name :=
            (fun s => if s == "" then none else some s)
              (getText (findChild author_elem "ForeName") "")
          initials :=
            (fun s => if s == "" then none else some s)
              (getText (findChild author_elem "Initials") "")
          affiliations :=
            (findAllDesc author_elem "Affiliation").filterMap (fun aff =>
              match aff.text with
              | none => none
              | some t => if t == "" then none else some t) })

/-- Journal extraction (`PubMedXMLParser.parse_journal`). -/
def parse_journal (article_elem : XElem) : PubMedJournal :=
  match findDesc article_elem "Journal" with
  | none => ⟨"Unknown Journal", none, none, none, none⟩
  | some journal_elem =>
      { title := getText (findChild journal_elem "Title") ""
        iso_abbreviation :=
          (fun s => if s == "" then none else some s)
            (getText (findChild journal_elem "ISOAbbreviation") "")
        issn :=
          (fun s => if s == "" then none else some s)
            (getText (findChild journal_elem "ISSN") "")
        volume :=
          (fun s => if s == "" then none else some s)
            (getText (findDesc journal_elem "Volume") "")
        issue :=
          (fun s => if s == "" then none else some s)
            (getText (findDesc journal_elem "Issue") "") }

/-- Date-bundle extraction (`PubMedXMLParser.parse_dates`); propagates the
uncaught `TypeError` of `_parse_date`. -/
def parse_dates (article_elem : XElem) : Except PyErr PubMedDates := do
  let completed ← parse_date (findDesc article_elem "DateCompleted")
  let revised ← parse_date (findDesc article_elem "DateRevised")
  let electronic_pub ←
    parse_date (findDescAttr article_elem "ArticleDate" "DateType" "Electronic")
  let pub_date ← parse_date (findDesc article_elem "PubDate")
  pure { completed, revised, electronic_pub, pub_date }

/-- ISO-rendered date bundle, the `dates` entry of the parsed dictionary
(`{k: v.isoformat() if v else None for k, v in dates.__dict__.items()}`). -/
structure DatesIso where
  completed : Option String
  revised : Option String
  electronic_pub : Option String
  pub_date : Option String
deriving DecidableEq, Repr

/-- Option rendering of `v.isoformat() if v else None`. -/
def isoOpt (v : Option DateTime) : Option String :=
  v.map isoformat

/-- Python value of an `Optional[str]`. -/
def optStrV : Option String → PyVal
  | none => .jnull
  | some s => .jstr s

/-- Structured dictionary produced by
`PubMedXMLParser.parse_pubmed_article` (its keyed entries as typed fields). -/
structure ParsedMeta where
  pmid : String
  title : String
  abstract : String
  journal : PubMedJournal
  authors : List PubMedAuthor
  dates : DatesIso
  publication_types : List (Option String)
  keywords : List (Option String)
  mesh_headings : List PyVal
  grants : List PubMedGrant
  references : List PubMedReference
  chemicals : List PyVal
deriving Repr

/-- MeSH heading entries of the parsed dictionary: one `{descriptor,
major_topic, qualifiers}` object per MeshHeading descendant that has a
DescriptorName child. -/
def meshHeadingsOf (medline_citation : XElem) : List PyVal :=
  (findAllDesc medline_citation "MeshHeading").filterMap (fun mh =>
    match findChild mh "DescriptorName" with
    | none => none
    | some desc =>
        some (.jobj
          [("descriptor", optStrV desc.text),
           ("major_topic", .jbool (xattr desc "MajorTopicYN" "N" == "Y")),
           ("qualifiers", .jarr ((findAllChild mh "QualifierName").map (fun q =>
              .jobj [("name", optStrV q.text),
                     ("major_topic", .jbool (xattr q "MajorTopicYN" "N" == "Y"))])))]))

/-- Chemical entries of the parsed dictionary. -/
def chemicalsOf (medline_citation : XElem) : List PyVal :=
  (findAllDesc medline_citation "Chemical").map (fun chem =>
    .jobj [("registry_number", .jstr (getText (findChild chem "RegistryNumber") "")),
           ("substance_name", .jstr (getText (findChild chem "NameOfSubstance") ""))])

/-- Whole-document parse (`PubMedXMLParser.parse_pubmed_article`), taking the
already-built element tree root (`ET.fromstring(xml_content)`).  It raises
`ValueError` when no PubmedArticle descendant exists; when MedlineCitation or
Article is missing it raises `AttributeError` (`None.find(...)` /
`parse_journal(None)`); `parse_dates` may raise `TypeError`. -/
def parse_pubmed_article (root : XElem) : Except PyErr ParsedMeta :=
  match findDesc root "PubmedArticle" with
  | none => .error (.valueError "No PubmedArticle element found in XML")
  | some article_set =>
    match findChild article_set "MedlineCitation" with
    | none => .error .attributeError
    | some medline_citation =>
      match findChild medline_citation "Article" with
      | none => .error .attributeError
      | some article =>
        let journal := parse_journal article
        let authors := parse_authors article
        match parse_dates article_set with
        | .error e => .error e
        | .ok dates =>
          .ok
            { pmid := getText (findChild medline_citation "PMID") ""
              title := getText (findChild article "ArticleTitle") ""
              abstract := getText (findDescChild article "Abstract" "AbstractText") ""
              journal := journal
              authors := authors
              dates :=
                { completed := isoOpt dates.completed
                  revised := isoOpt dates.revised
                  electronic_pub := isoOpt dates.electronic_pub
                  pub_date := isoOpt dates.pub_date }
              publication_types :=
                (findAllDesc article "PublicationType").map XElem.text
              keywords :=
                (findAllDesc medline_citation "Keyword").map XElem.text
              mesh_headings := meshHeadingsOf medline_citation
              grants := parse_grants article
              references := parse_references article_set
              chemicals := chemicalsOf medline_citation }

/-!
Embedding of src/lib/fetchers/entrez/base.py (`BaseArticle`) and
src/lib/fetchers/entrez/pubmed/models.py (`PubMedArticle`).
-/

/-- Canonical article record: the `BaseArticle` fields set by
`PubMedArticle.__init__` via `super().__init__` plus the PubMed-specific
fields.  Fields whose runtime type is dynamic in the source hold `PyVal`. -/
structure PubMedArticle where
  title : PyVal
  abstract : PyVal
  authors : List PyVal
  doi : PyVal
  source_id : PyVal
  source_type : String
  published_date : DateTime
  keywords : PyVal
  related_dois : List PyVal
  pmid : PyVal
  journal : PyVal
  volume : PyVal
  issue : PyVal
  pages : PyVal
  pubtype : PyVal
  author_details : List PubMedAuthor
  journal_details : Option PubMedJournal
  dates : Option PubMedDates
  mesh_headings : List PyVal
  grants : List PubMedGrant
  references : List PubMedReference
  chemicals : List PyVal
deriving Repr

/-- Constructor semantics of `PubMedArticle.__init__`: `source_id`/`pmid` are
the same value, `source_type` is the literal "pubmed", `pubtype or []`
replaces a falsy pubtype by an empty list, and the optional structured fields
default to empty containers (`x or []`) or stay `None`. -/
def PubMedArticle.make (title abstract : PyVal) (authors : List PyVal)
    (doi pmid : PyVal) (keywords : PyVal) (related_dois : List PyVal)
    (published_date : DateTime) (journal volume issue pages : PyVal)
    (pubtype : PyVal) (author_details : Option (List PubMedAuthor))
    (journal_details : Option PubMedJournal) (dates : Option PubMedDates)
    (mesh_headings : Option (List PyVal)) (grants : Option (List PubMedGrant))
    (references : Option (List PubMedReference))
    (chemicals : Option (List PyVal)) : PubMedArticle :=
  { title, abstract, authors, doi
    source_id := pmid
    source_type := "pubmed"
    published_date
    keywords, related_dois, pmid, journal, volume, issue, pages
    pubtype := if pyTruthy pubtype then pubtype else .jarr []
    author_details := author_details.getD []
    journal_details, dates
    mesh_headings := mesh_headings.getD []
    grants := grants.getD []
    references := references.getD []
    chemicals := chemicals.getD [] }

/-- Dict form of a `PubMedAuthor` (`author.__dict__`). -/
def authorDict (a : PubMedAuthor) : PyVal :=
  .jobj [("last_name", .jstr a.last_name),
         ("fore_name", optStrV a.fore_name),
         ("initials", optStrV a.initials),
         ("affiliations", .jarr (a.affiliations.map .jstr))]

/-- Dict form of a `PubMedJournal` (`journal_details.__dict__`). -/
def journalDict (j : PubMedJournal) : PyVal :=
  .jobj [("title", .jstr j.title),
         ("iso_abbreviation", optStrV j.iso_abbreviation),
         ("issn", optStrV j.issn),
         ("volume", optStrV j.volume),
         ("issue", optStrV j.issue)]

/-- Dict form of a `PubMedDates` bundle with each date ISO-rendered
(`{k: v.isoformat() if v else None for k, v in self.dates.__dict__.items()}`). -/
def datesDict (d : PubMedDates) : PyVal :=
  .jobj [("completed", optStrV (isoOpt d.completed)),
         ("revised", optStrV (isoOpt d.revised)),
         ("electronic_pub", optStrV (isoOpt d.electronic_pub)),
         ("pub_date", optStrV (isoOpt d.pub_date))]

/-- Dict form of a `PubMedGrant` (`grant.__dict__`). -/
def grantDict (g : PubMedGrant) : PyVal :=
  .jobj [("grant_id", optStrV g.grant_id),
         ("acronym", optStrV g.acronym),
         ("agency", optStrV g.agency),
         ("country", optStrV g.country)]

/-- Dict form of a `PubMedReference` (`ref.__dict__`). -/
def referenceDict (r : PubMedReference) : PyVal :=
  .jobj [("citation", .jstr r.citation),
         ("pmid", optStrV r.pmid),
         ("doi", optStrV r.doi),
         ("pmc_id", optStrV r.pmc_id)]

/-- Conditional dict entry: `if cond: base_dict[k] = v`. -/
def optEntry (cond : Bool) (k : String) (v : PyVal) : List (String × PyVal) :=
  if cond then [(k, v)] else []

/-- Serialization `BaseArticle.to_dict`. -/
def BaseArticle.to_dict (a : PubMedArticle) : List (String × PyVal) :=
  [("title", a.title),
   ("abstract", a.abstract),
   ("authors", .jarr a.authors),
   ("doi", a.doi),
   ("source_id", a.source_id),
   ("source_type", .jstr a.source_type),
   ("published_date", .jstr (isoformat a.published_date))]

/-- Serialization `PubMedArticle.to_dict`: the base dict, updated with the
PubMed scalar fields, then the extended fields each added only when truthy
(nonempty list / present object). -/
def PubMedArticle.to_dict (a : PubMedArticle) : List (String × PyVal) :=
  BaseArticle.to_dict a ++
  [("keywords", a.keywords),
   ("related_dois", .jarr a.related_dois),
   ("pmid", a.pmid),
   ("journal", a.journal),
   ("volume", a.volume),
   ("issue", a.issue),
   ("pages", a.pages),
   ("pubtype", a.pubtype)] ++
  optEntry (!a.author_details.isEmpty) "author_details"
    (.jarr (a.author_details.map authorDict)) ++
  optEntry a.journal_details.isSome "journal_details"
    (match a.journal_details with
     | some j => journalDict j
     | none => .jnull) ++
  optEntry a.dates.isSome "dates"
    (match a.dates with
     | some d => datesDict d
     | none => .jnull) ++
  optEntry (!a.mesh_headings.isEmpty) "mesh_headings" (.jarr a.mesh_headings) ++
  optEntry (!a.grants.isEmpty) "grants" (.jarr (a.grants.map grantDict)) ++
  optEntry (!a.references.isEmpty) "references"
    (.jarr (a.references.map referenceDict)) ++
  optEntry (!a.chemicals.isEmpty) "chemicals" (.jarr a.chemicals)

/-- DOI scan of `PubMedArticle.from_esummary`: first entry of `articleids`
whose `idtype` equals "doi" yields its `value`; entries without a dict
interface raise `AttributeError`. -/
def esummaryDoi : List PyVal → Except PyErr PyVal
  | [] => .ok .jnull
  | id_obj :: rest =>
    match id_obj with
    | .jobj fs =>
        if dictGet fs "idtype" .jnull == PyVal.jstr "doi" then
          .ok (dictGet fs "value" .jnull)
        else esummaryDoi rest
    | _ => .error .attributeError

/-- Author-name scan of `PubMedArticle.from_esummary`: keep `author['name']`
for entries that are dicts containing a `name` key. -/
def esummaryAuthors (items : List PyVal) : List PyVal :=
  items.filterMap (fun a =>
    match a with
    | .jobj fs => dictLookup fs "name"
    | _ => none)

/-- Date fallback of `PubMedArticle.from_esummary`: try `sortpubdate` as
"%Y/%m/%d %H:%M", then `pubdate` as "%Y %b", then `now`; `strptime` on a
non-string raises `TypeError`, which the source catches alongside
`ValueError`. -/
def esummaryDate (afields : List (String × PyVal)) (now : DateTime) : DateTime :=
  match dictGet afields "sortpubdate" (.jstr "") with
  | .jstr s =>
      (match strptimeSort? s with
       | some dt => dt
       | none =>
          match dictGet afields "pubdate" (.jstr "") with
          | .jstr s2 => (strptimeYearMon? s2).getD now
          | _ => now)
  | _ =>
      match dictGet afields "pubdate" (.jstr "") with
      | .jstr s2 => (strptimeYearMon? s2).getD now
      | _ => now

/-- Summary-record entry point `PubMedArticle.from_esummary`.  It takes the
first value of `summary_data.get('result', {})`; an empty result raises
`StopIteration` (`next(iter(...))`), a non-dict first value raises
`ValueError("Invalid summary data format")`; `now` stands for
`datetime.now()`. -/
def from_esummary (now : DateTime) (summary_data : List (String × PyVal)) :
    Except PyErr PubMedArticle :=
  match dictGet summary_data "result" (.jobj []) with
  | .jobj resFields =>
    match (resFields.map (fun p => p.2)).head? with
    | none => .error .stopIteration
    | some article_data =>
      match article_data with
      | .jobj afields =>
        match pyIter (dictGet afields "articleids" (.jarr [])) with
        | .error e => .error e
        | .ok idItems =>
          match esummaryDoi idItems with
          | .error e => .error e
          | .ok doi =>
            match pyIter (dictGet afields "authors" (.jarr [])) with
            | .error e => .error e
            | .ok authorItems =>
              .ok (PubMedArticle.make
                (dictGet afields "title" (.jstr "No title available"))
                (.jstr "")
                (esummaryAuthors authorItems)
                doi
                (dictGet afields "uid" (.jstr "No PMID available"))
                (.jarr []) []
                (esummaryDate afields now)
                (dictGet afields "fulljournalname" .jnull)
                (dictGet afields "volume" .jnull)
                (dictGet afields "issue" .jnull)
                (dictGet afields "pages" .jnull)
                (dictGet afields "pubtype" (.jarr []))
                none none none none none none none)
      | _ => .error (.valueError "Invalid summary data format")
  | _ => .error .attributeError

/-- Python `str(v)` as used on author entries in `from_pymed_article`.
Container renderings are abridged; no claim depends on them. -/
def pyStr : PyVal → String
  | .jnull => "None"
  | .jstr s => s
  | .jnum n => toString n
  | .jbool b => if b then "True" else "False"
  | .jarr _ => "[...]"
  | .jobj _ => "\x7b...\x7d"

/-- Python `str.split()` with no argument: split on whitespace runs,
dropping empty fragments. -/
def pySplitWs (s : String) : List String :=
  (s.split Char.isWhitespace).filter (fun t => t ≠ "")

/-- Plural-form normalization of `from_pymed_article`:
`x = x[0] if isinstance(x, (list, tuple)) else x`; indexing an empty list
raises `IndexError` (unreachable after the truthiness default). -/
def pymedFirstIfList (v : PyVal) : Except PyErr PyVal :=
  match v with
  | .jarr xs =>
      (match xs.head? with
       | some x => .ok x
       | none => .error .indexError)
  | _ => .ok v

/-- Duck-typed pymed article object consumed by
`PubMedArticle.from_pymed_article`.  Fields read with a bare attribute access
are plain `PyVal`; fields whose access is guarded by `try/except
AttributeError` or `getattr(..., default)` are `Option`-wrapped with `none`
for a missing attribute.  `publication_date` holds `some none` when the
attribute is present but falsy, and in practice carries a datetime. -/
structure PymedInput where
  title : PyVal
  abstract : PyVal
  keywords : PyVal
  doi : PyVal
  pubmed_id : PyVal
  publication_date : Option (Option DateTime)
  authors : Option PyVal
  journal : Option PyVal
  volume : Option PyVal
  issue : Option PyVal
  pages : Option PyVal
  pubtype : Option PyVal

/-- Search-result entry point `PubMedArticle.from_pymed_article`;
`now` stands for `datetime.now()`. -/
def from_pymed_article (now : DateTime) (article : PymedInput) :
    Except PyErr PubMedArticle :=
  match pymedFirstIfList
      (if pyTruthy article.title then article.title
       else .jstr "No title available") with
  | .error e => .error e
  | .ok title =>
    match pymedFirstIfList
        (if pyTruthy article.abstract then article.abstract
         else .jstr "No abstract available") with
    | .error e => .error e
    | .ok abstract =>
      let keywords0 :=
        if pyTruthy article.keywords then article.keywords else .jarr []
      let keywords :=
        match keywords0 with
        | .jarr (x :: _) =>
            (match x with
             | .jarr _ => x
             | _ => keywords0)
        | _ => keywords0
      match (if ¬ pyTruthy article.doi then
               (.ok (PyVal.jnull, ([] : List PyVal)) :
                 Except PyErr (PyVal × List PyVal))
             else match article.doi with
               | .jstr s =>
                   let dois := pySplitWs s
                   .ok ((match dois with
                         | [] => PyVal.jnull
                         | d0 :: _ => .jstr d0),
                        if dois.length > 1 then (dois.drop 1).map PyVal.jstr
                        else [])
               | _ => .error PyErr.attributeError) with
      | .error e => .error e
      | .ok (doi, related_dois) =>
        match (if ¬ pyTruthy article.pubmed_id then
                 (.ok (PyVal.jstr "No PMID available") : Except PyErr PyVal)
               else match article.pubmed_id with
                 | .jstr s =>
                     (match (pySplitWs s).head? with
                      | some p => .ok (PyVal.jstr p)
                      | none => .error PyErr.indexError)
                 | _ => .error PyErr.attributeError) with
        | .error e => .error e
        | .ok pmid =>
          let published_date :=
            match article.publication_date with
            | none => now
            | some none => now
            | some (some d) => d
          match (match article.authors with
                 | none => (.ok ([] : List PyVal) : Except PyErr (List PyVal))
                 | some v =>
                     if pyTruthy v then
                       match pyIter v with
                       | .error e => .error e
                       | .ok items => .ok (items.map (fun a => PyVal.jstr (pyStr a)))
                     else .ok []) with
          | .error e => .error e
          | .ok authors =>
            .ok (PubMedArticle.make title abstract authors doi pmid keywords
              related_dois published_date
              (article.journal.getD .jnull)
              (article.volume.getD .jnull)
              (article.issue.getD .jnull)
              (article.pages.getD .jnull)
              (article.pubtype.getD (.jarr []))
              none none none none none none none)

/-- Display-name rendering of the `from_xml` author comprehension:
`f"{author['last_name']}, {author['fore_name']}" if author.get('fore_name')
else author['last_name']` — the initials are never consulted. -/
def xmlAuthorName (a : PubMedAuthor) : String :=
  if optTruthy a.fore_name then a.last_name ++ ", " ++ a.fore_name.getD ""
  else a.last_name

/-- Date fallback loop of `from_xml`: first option that is a truthy string
parsing under `datetime.fromisoformat`. -/
def firstParsableDate : List (Option String) → Option DateTime
  | [] => none
  | o :: rest =>
    match o with
    | none => firstParsableDate rest
    | some s =>
        if s == "" then firstParsableDate rest
        else
          match fromisoformat? s with
          | some dt => some dt
          | none => firstParsableDate rest

/-- Article construction of `from_xml` after a successful parse: author
display names, best-date fallback (order pub_date, electronic_pub, completed,
revised, then `now`), and all extended fields except `dates`, which the
source never passes. -/
def buildFromMeta (now : DateTime) (metadata : ParsedMeta) : PubMedArticle :=
  let authors := metadata.authors.map (fun a => PyVal.jstr (xmlAuthorName a))
  let published_date :=
    (firstParsableDate
      [metadata.dates.pub_date, metadata.dates.electronic_pub,
       metadata.dates.completed, metadata.dates.revised]).getD now
  PubMedArticle.make (.jstr metadata.title) (.jstr metadata.abstract) authors
    .jnull (.jstr metadata.pmid)
    (.jarr (metadata.keywords.map optStrV)) []
    published_date
    (.jstr metadata.journal.title) (optStrV metadata.journal.volume)
    (optStrV metadata.journal.issue) .jnull
    (.jarr (metadata.publication_types.map optStrV))
    (some metadata.authors) (some metadata.journal) none
    (some metadata.mesh_headings) (some metadata.grants)
    (some metadata.references) (some metadata.chemicals)

/-- Full-citation entry point `PubMedArticle.from_xml`, taking the parsed
element tree root; `now` stands for `datetime.now()`. -/
def from_xml (now : DateTime) (root : XElem) : Except PyErr PubMedArticle :=
  match parse_pubmed_article root with
  | .error e => .error e
  | .ok metadata => .ok (buildFromMeta now metadata)

/-!
Embedding of src/lib/processors/article_processor.py
(`ArticleProcessor.search_and_process`).  The upstream client calls are
oracles; `.error` models a raised exception.  Storage writes go through
`_save_metadata`, which has its own `try/except` returning a Bool, so they
cannot abort the loop and are not tracked here.
-/

/-- Outcomes of the client calls made inside the per-article loop. -/
structure ClientOracle where
  fetch_xml : PyVal → Except Unit (Option String)
  fetch_by_id : PyVal → Except Unit (Option PubMedArticle)
  fetch_summary : PyVal → Except Unit (Option PyVal)
  fetch_pdf : PyVal → Except Unit (Option (List Nat))

/-- Body of the per-article `try` block of `search_and_process`: fetch the
XML; when truthy, fetch the full record (whose own fallback search is inside
`PubMedClient.fetch_by_id`); on success serialize it, attempt the
summary side fetch (wrapped in its own `try/except`), then the PDF fetch.
`.ok (some metadata)` is the `results.append(metadata); continue` path,
`.ok none` falls through to `failed_pmids.append(pmid)`, and `.error` is an
exception escaping the block. -/
def processOneRaw (c : ClientOracle) (pmid : PyVal) :
    Except Unit (Option (List (String × PyVal))) :=
  match c.fetch_xml pmid with
  | .error e => .error e
  | .ok xml_content =>
    if optTruthy xml_content then
      match c.fetch_by_id pmid with
      | .error e => .error e
      | .ok none => .ok none
      | .ok (some full_article) =>
        let metadata := full_article.to_dict
        let _summary := c.fetch_summary pmid
        match c.fetch_pdf pmid with
        | .error e => .error e
        | .ok _pdf => .ok (some metadata)
    else .ok none

/-- Per-article step with the surrounding `except Exception` applied: an
escaping exception is logged and the id counted as failed. -/
def processOne (c : ClientOracle) (pmid : PyVal) :
    Option (List (String × PyVal)) :=
  match processOneRaw c pmid with
  | .error _ => none
  | .ok r => r

/-- Post-processing aggregate assembled by `search_and_process`. -/
structure BatchSummary where
  total_articles_found : Nat
  successfully_processed : Nat
  failed_processing : Nat
  failed_pmids : List PyVal
  articles : List (List (String × PyVal))
deriving Repr

/-- Loop-body accumulation of `search_and_process`: a processed article
appends its metadata to `results`, a failed one appends its id to
`failed_pmids`. -/
def sapStep (c : ClientOracle)
    (acc : List (List (String × PyVal)) × List PyVal)
    (article : PubMedArticle) :
    List (List (String × PyVal)) × List PyVal :=
  match processOne c article.pmid with
  | some metadata => (acc.1 ++ [metadata], acc.2)
  | none => (acc.1, acc.2 ++ [article.pmid])

/-- Batch loop of `ArticleProcessor.search_and_process` after a successful
initial search returning `articles`. -/
def search_and_process (c : ClientOracle) (articles : List PubMedArticle) :
    BatchSummary :=
  let rf := articles.foldl (sapStep c) ([], [])
  { total_articles_found := articles.length
    successfully_processed := rf.1.length
    failed_processing := rf.2.length
    failed_pmids := rf.2
    articles := rf.1 }

/-!
Embedding of src/lib/utils/rate_limit.py.  `rate_limit(delay)` decorates a
method once, at class-definition time, creating a single closure variable
`last_call` shared by every instance of the class; the wrapper reads the
clock, sleeps for any remaining fraction of the effective delay, stores the
post-sleep clock in `last_call` and only then runs the wrapped call.  Time is
passed explicitly as rationals; `rlStep` gives the post-sleep clock reading
under an exact sleep.
-/

/-- Effective delay of one call: `args[0].request_delay` when the receiving
instance has that attribute, the decorator's `delay` argument otherwise. -/
def effectiveDelay (dflt : ℚ) (request_delay : Option ℚ) : ℚ :=
  match request_delay with
  | some d => d
  | none => dflt

/-- Sleep amount of the wrapper: `delay - (current_time - last_call)` when
that is positive, zero otherwise. -/
def sleepNeeded (last_call t_now delay : ℚ) : ℚ :=
  if t_now - last_call < delay then delay - (t_now - last_call) else 0

/-- Clock reading after the wrapper's sleep (the new `last_call`, which is
also the start of the wrapped call). -/
def nextStart (last_call t_now delay : ℚ) : ℚ :=
  t_now + sleepNeeded last_call t_now delay

/-- End of a call that started at `start` and ran for `dur`. -/
def callEnd (start dur : ℚ) : ℚ :=
  start + dur

/-- One observed call through the pacing wrapper: the request_delay of the
receiving instance (none when the attribute is absent) and the clock reading
at entry. -/
structure RLCall where
  request_delay : Option ℚ
  t_enter : ℚ

/-- State update of the shared `last_call` cell for one call. -/
def rlStep (dflt last_call : ℚ) (c : RLCall) : ℚ :=
  nextStart last_call c.t_enter (effectiveDelay dflt c.request_delay)

/-- Start times of a sequence of calls through one decorated method: every
call, whichever instance makes it, reads and writes the same cell. -/
def rlStarts (dflt : ℚ) (last_call : ℚ) : List RLCall → List ℚ
  | [] => []
  | c :: cs =>
      let s := rlStep dflt last_call c
      s :: rlStarts dflt s cs

/-!
Specification-side definitions (stated from the spec's words, for comparison
with the source embedding) and concrete inputs used by witnesses and
counterexamples.
-/

/-- Value of the last occurrence of the given identifier type among the
pairs, the fallback when the type never occurs. -/
def lastTypeD (ty : String) (pairs : List (String × Option String))
    (dflt : Option String) : Option String :=
  match (pairs.filter (fun p => p.1 == ty)).getLast? with
  | some pr => pr.2
  | none => dflt

/-- Specification reading of reference-identifier extraction: the value of
the last occurrence of the given identifier type, none when the type never
occurs. -/
def lastOfType (ty : String) (pairs : List (String × Option String)) :
    Option String :=
  lastTypeD ty pairs none

/-- Well-shaped `articleids` entry: a list whose elements all expose a dict
interface. -/
def isObjList : List PyVal → Bool
  | [] => true
  | x :: xs =>
      (match x with
       | .jobj _ => true
       | _ => false) && isObjList xs

/-- Shape under which the `articleids` scan of `from_esummary` cannot raise. -/
def idsOk (v : PyVal) : Bool :=
  match v with
  | .jarr xs => isObjList xs
  | _ => false

/-- Values Python can iterate without raising `TypeError`. -/
def iterOk (v : PyVal) : Bool :=
  match v with
  | .jarr _ => true
  | .jobj _ => true
  | .jstr _ => true
  | _ => false

/-- Key membership in a serialized dict. -/
def hasKey (l : List (String × PyVal)) (k : String) : Bool :=
  l.any (fun p => p.1 == k)

/-- Element with children only. -/
def el (tag : String) (children : List XElem) : XElem :=
  .mk tag [] none children

/-- Leaf element with text. -/
def elT (tag text : String) : XElem :=
  .mk tag [] (some text) []

/-- Leaf element with no text. -/
def elE (tag : String) : XElem :=
  .mk tag [] none []

/-- Fixed datetime standing for `datetime.now()` in concrete runs. -/
def now0 : DateTime :=
  ⟨2024, 1, 2, 3, 4, 5⟩

/-- Citation document whose single author has a last name and initials but no
forename. -/
def rootInitialsOnly : XElem :=
  el "PubmedArticleSet"
    [el "PubmedArticle"
      [el "MedlineCitation"
        [elT "PMID" "1",
         el "Article"
          [el "AuthorList"
            [el "Author" [elT "LastName" "Smith", elT "Initials" "J"]]]]]]

/-- Citation document with the wrapper and required sub-blocks but no PMID
element. -/
def rootNoPmid : XElem :=
  el "PubmedArticleSet"
    [el "PubmedArticle" [el "MedlineCitation" [el "Article" []]]]

/-- Citation document whose wrapper is present but whose MedlineCitation
block is missing. -/
def rootNoMedline : XElem :=
  el "PubmedArticleSet" [el "PubmedArticle" []]

/-- Well-formed citation document with one reference carrying two identifiers
of type pubmed. -/
def rootDupIds : XElem :=
  el "PubmedArticleSet"
    [el "PubmedArticle"
      [el "MedlineCitation" [elT "PMID" "7", el "Article" []],
       el "PubmedData"
        [el "ReferenceList"
          [el "Reference"
            [elT "Citation" "Some citation",
             el "ArticleIdList"
              [XElem.mk "ArticleId" [("IdType", "pubmed")] (some "111") [],
               XElem.mk "ArticleId" [("IdType", "doi")] (some "10.1/x") [],
               XElem.mk "ArticleId" [("IdType", "pubmed")] (some "222") []]]]]]]

/-- Date element whose Year child is present but has no text. -/
def dateYearNoText : XElem :=
  el "PubDate" [elE "Year"]

/-- Summary payload whose first result value is not a dict. -/
def badSummary : List (String × PyVal) :=
  [("result", .jobj [("1", .jstr "bad")])]

/-- Minimal well-shaped summary payload with only a uid. -/
def goodSummary : List (String × PyVal) :=
  [("result", .jobj [("1", .jobj [("uid", .jstr "42")])])]

/-- Minimal article used in concrete batch runs. -/
def mkTestArticle (pmid : String) : PubMedArticle :=
  PubMedArticle.make (.jstr "t") (.jstr "a") [] .jnull (.jstr pmid)
    (.jarr []) [] now0 .jnull .jnull .jnull .jnull (.jarr [])
    none none none none none none none

/-- Oracle for the two-id batch scenario: id A's citation fetch succeeds and
its record is built; id B's citation fetch yields nothing (and the fallback
search inside `fetch_by_id` is thus never reached). -/
def ctxAB : ClientOracle :=
  { fetch_xml := fun p =>
      if p == PyVal.jstr "A" then .ok (some "<doc/>") else .ok none
    fetch_by_id := fun p =>
      if p == PyVal.jstr "A" then .ok (some (mkTestArticle "A")) else .ok none
    fetch_summary := fun _ => .ok none
    fetch_pdf := fun _ => .ok none }

/-!
Theorems.  Each claim Ci of the specification audit has exactly one main
theorem, plus a counterexample and/or witness where its status requires one.
-/

/-- Claim C4 (code bug): with the PubmedArticle wrapper present but the
MedlineCitation block missing, `parse_pubmed_article` does not complete with
defaults and does not report the structure error — it raises `AttributeError`
from `None.find('Article')`, while a document with no wrapper at all raises
the documented structure `ValueError`. -/
theorem claim_C4_theorem :
    parse_pubmed_article rootNoMedline = .error .attributeError ∧
    PyErr.attributeError ≠
      PyErr.valueError "No PubmedArticle element found in XML" ∧
    parse_pubmed_article (el "Empty" []) =
      .error (.valueError "No PubmedArticle element found in XML") :=
  ⟨rfl, by decide, rfl⟩

/-- Claim C5 (code bug): a date element whose Year child is present but has
no text makes `_parse_date` raise an uncaught `TypeError` (`int(None)`)
instead of resolving to null, although a valid year with no month/day does
resolve to January 1 of that year and an invalid month does resolve to
null. -/
theorem claim_C5_theorem :
    parse_date (some dateYearNoText) = .error .typeError ∧
    parse_date (some (el "PubDate" [elT "Year" "2020"])) =
      .ok (some ⟨2020, 1, 1, 0, 0, 0⟩) ∧
    parse_date (some (el "PubDate" [elT "Year" "2020", elT "Month" "13"])) =
      .ok none :=
  ⟨rfl, rfl, rfl⟩

/-- Lower bound of the pacing step: the post-sleep clock (the new value of
the shared `last_call`, which is also the start of the wrapped call) is at
least the previous `last_call` plus the delay. -/
theorem nextStart_ge (last t d : ℚ) : last + d ≤ nextStart last t d := by
  unfold nextStart sleepNeeded
  split
  · linarith
  · linarith

/-- Claim C9 (counterexample): with delay 1, a call that started at time 10
and ran for 1 time unit ends at 11; a next call entering at 11 is not slept
at all, so the interval measured from the end of the previous call to the
start of the next is 0, not at least the configured delay. -/
theorem claim_C9_counterexample :
    ¬ (nextStart 10 (callEnd 10 1) 1 - callEnd 10 1 ≥ 1) ∧
    nextStart 10 (callEnd 10 1) 1 = callEnd 10 1 := by
  constructor
  · norm_num [nextStart, sleepNeeded, callEnd]
  · norm_num [nextStart, sleepNeeded, callEnd]

/-- Claim C9 (amended): two consecutive calls through the pacing wrapper are
separated by at least the effective delay measured from the START of the
previous call (the stored `last_call`) to the start of the next, the
per-instance `request_delay` overriding the decorator default when present. -/
theorem claim_C9_amended (last t dflt : ℚ) (rd : Option ℚ) :
    last + effectiveDelay dflt rd ≤ nextStart last t (effectiveDelay dflt rd) :=
  nextStart_ge last t (effectiveDelay dflt rd)

/-- Claim C9 (witness): instantiation of the amended pacing bound at the
default delay with no per-instance override. -/
theorem claim_C9_witness :
    (10 : ℚ) + effectiveDelay (34/100) none ≤
      nextStart 10 11 (effectiveDelay (34/100) none) :=
  claim_C9_amended 10 11 (34/100) none

/-- Claim C10: the pacing state is one shared cell per decorated method, so
in a trace of two calls made by two different instances the second call
consults exactly the timestamp written by the first, and its start is
separated from the first call's start by at least the second caller's own
effective delay — distinct instances pace against each other even with
different request_delay values. -/
theorem claim_C10_theorem (dflt last0 : ℚ) (cA cB : RLCall) :
    rlStarts dflt last0 [cA, cB] =
      [rlStep dflt last0 cA, rlStep dflt (rlStep dflt last0 cA) cB] ∧
    rlStep dflt last0 cA + effectiveDelay dflt cB.request_delay ≤
      rlStep dflt (rlStep dflt last0 cA) cB :=
  ⟨rfl, nextStart_ge _ _ _⟩

/-- Rendering equivalence used for claim C1: the `from_xml` display-name rule
equals the full-name rule applied to the author with its initials discarded. -/
theorem xmlAuthorName_eq (a : PubMedAuthor) :
    xmlAuthorName a = PubMedAuthor.get_full_name { a with initials := none } := by
  unfold xmlAuthorName PubMedAuthor.get_full_name
  cases h : optTruthy a.fore_name <;> simp [h, optTruthy]

/-- Claim C1 (counterexample): the citation parser extracts the structured
author (last "Smith", no forename, initials "J"); the full-name rule renders
it "Smith, J", but `from_xml` renders the display name "Smith" — the initials
fallback is not applied. -/
theorem claim_C1_counterexample :
    (from_xml now0 rootInitialsOnly).map (fun a => a.author_details) =
      .ok [⟨"Smith", none, some "J", []⟩] ∧
    (from_xml now0 rootInitialsOnly).map (fun a => a.authors) =
      .ok [PyVal.jstr "Smith"] ∧
    PubMedAuthor.get_full_name ⟨"Smith", none, some "J", []⟩ = "Smith, J" ∧
    ("Smith" : String) ≠ "Smith, J" :=
  ⟨rfl, rfl, rfl, by decide⟩

/-- Claim C1 (amended): for every article built by `from_xml`, each author
display name follows the truncated rule "Last, Given" when a given name is
present and "Last" alone otherwise — equivalently, the full-name rule applied
with the initials erased; the initials are never consulted. -/
theorem claim_C1_amended (now : DateTime) (root : XElem) (a : PubMedArticle)
    (h : from_xml now root = .ok a) :
    a.authors = a.author_details.map
      (fun au => PyVal.jstr (PubMedAuthor.get_full_name { au with initials := none })) := by
  unfold from_xml at h
  cases hp : parse_pubmed_article root with
  | error e => rw [hp] at h; cases h
  | ok m =>
      rw [hp] at h
      injection h with h2
      subst h2
      simp [buildFromMeta, PubMedArticle.make, xmlAuthorName_eq]

/-- Claim C1 (witness): the amended rendering rule instantiated on a concrete
parsed citation document. -/
theorem claim_C1_witness :
    ∃ a, from_xml now0 rootInitialsOnly = Except.ok a ∧
      a.authors = a.author_details.map
        (fun au => PyVal.jstr (PubMedAuthor.get_full_name { au with initials := none })) := by
  obtain ⟨a, ha⟩ : ∃ a, from_xml now0 rootInitialsOnly = Except.ok a := ⟨_, rfl⟩
  exact ⟨a, ha, claim_C1_amended now0 rootInitialsOnly a ha⟩

/-- Scan totality: on a list of dict-shaped identifier entries the DOI scan of
`from_esummary` cannot raise. -/
theorem esummaryDoi_ok (xs : List PyVal) (h : isObjList xs = true) :
    ∃ r, esummaryDoi xs = .ok r := by
  induction xs with
  | nil => exact ⟨.jnull, rfl⟩
  | cons x tl ih =>
      cases x with
      | jobj fs =>
          have htl : isObjList tl = true := by
            simpa [isObjList] using h
          by_cases hd : (dictGet fs "idtype" .jnull == PyVal.jstr "doi") = true
          · exact ⟨dictGet fs "value" .jnull, by simp [esummaryDoi, hd]⟩
          · obtain ⟨r, hr⟩ := ih htl
            refine ⟨r, ?_⟩
            simp only [esummaryDoi]
            rw [if_neg (by simpa using hd)]
            exact hr
      | jnull => simp [isObjList] at h
      | jstr s => simp [isObjList] at h
      | jnum n => simp [isObjList] at h
      | jbool b => simp [isObjList] at h
      | jarr l => simp [isObjList] at h

/-- Success shape of `from_esummary`: when the result mapping is a dict whose
first value is a dict, the `articleids` value is a list of dicts (or absent)
and the `authors` value is iterable (or absent), the constructor returns an
Article whose pmid/title are the corresponding fields with their sentinels
and whose source kind is "pubmed". -/
theorem from_esummary_shape (now : DateTime)
    (sd resFields afields : List (String × PyVal))
    (h1 : dictGet sd "result" (.jobj []) = .jobj resFields)
    (h2 : (resFields.map (fun p => p.2)).head? = some (.jobj afields))
    (h3 : idsOk (dictGet afields "articleids" (.jarr [])) = true)
    (h4 : iterOk (dictGet afields "authors" (.jarr [])) = true) :
    ∃ a, from_esummary now sd = .ok a ∧
      a.pmid = dictGet afields "uid" (.jstr "No PMID available") ∧
      a.title = dictGet afields "title" (.jstr "No title available") ∧
      a.source_type = "pubmed" := by
  unfold from_esummary
  rw [h1]
  dsimp only
  rw [h2]
  dsimp only
  cases hv : dictGet afields "articleids" (.jarr []) with
  | jarr xs =>
      have hobj : isObjList xs = true := by
        rw [hv] at h3; simpa [idsOk] using h3
      obtain ⟨r, hr⟩ := esummaryDoi_ok xs hobj
      dsimp only [pyIter]
      rw [hr]
      dsimp only
      cases ha : dictGet afields "authors" (.jarr []) with
      | jarr ys => exact ⟨_, rfl, rfl, rfl, rfl⟩
      | jobj fs2 => exact ⟨_, rfl, rfl, rfl, rfl⟩
      | jstr s => exact ⟨_, rfl, rfl, rfl, rfl⟩
      | jnull => rw [ha] at h4; simp [iterOk] at h4
      | jnum n => rw [ha] at h4; simp [iterOk] at h4
      | jbool b => rw [ha] at h4; simp [iterOk] at h4
  | jnull => rw [hv] at h3; simp [idsOk] at h3
  | jstr s => rw [hv] at h3; simp [idsOk] at h3
  | jnum n => rw [hv] at h3; simp [idsOk] at h3
  | jbool b => rw [hv] at h3; simp [idsOk] at h3
  | jobj fs => rw [hv] at h3; simp [idsOk] at h3

/-- Claim C2 (counterexample): the summary-record constructor raises — a
payload whose first result value is the string "bad" makes `from_esummary`
raise `ValueError("Invalid summary data format")` instead of returning an
Article. -/
theorem claim_C2_counterexample :
    from_esummary now0 badSummary =
      .error (.valueError "Invalid summary data format") :=
  rfl

/-- Claim C2 (amended): the reconciler entry points do not raise on inputs
whose top-level shape is well-formed: `from_esummary` returns an Article
whenever its result mapping is a dict with a dict first value, a
list-of-dicts (or absent) `articleids` and an iterable (or absent) `authors`
— field-level malformation inside that shape degrades to defaults — and
`from_xml` returns an Article whenever the citation parse itself succeeds.
The top-level shape errors (non-dict result value, empty result, missing
wrapper blocks) do raise. -/
theorem claim_C2_amended :
    (∀ (now : DateTime) (sd resFields afields : List (String × PyVal)),
      dictGet sd "result" (.jobj []) = .jobj resFields →
      (resFields.map (fun p => p.2)).head? = some (.jobj afields) →
      idsOk (dictGet afields "articleids" (.jarr [])) = true →
      iterOk (dictGet afields "authors" (.jarr [])) = true →
      ∃ a, from_esummary now sd = .ok a) ∧
    (∀ (now : DateTime) (root : XElem) (m : ParsedMeta),
      parse_pubmed_article root = .ok m →
      from_xml now root = .ok (buildFromMeta now m)) := by
  constructor
  · intro now sd resFields afields h1 h2 h3 h4
    obtain ⟨a, ha, -, -, -⟩ := from_esummary_shape now sd resFields afields h1 h2 h3 h4
    exact ⟨a, ha⟩
  · intro now root m hm
    unfold from_xml
    rw [hm]

/-- Claim C2 (witness): the amended no-raise contract instantiated on a
well-shaped summary payload and a well-formed citation document. -/
theorem claim_C2_witness :
    (∃ a, from_esummary now0 goodSummary = Except.ok a) ∧
    (∃ m, parse_pubmed_article rootDupIds = Except.ok m ∧
      from_xml now0 rootDupIds = Except.ok (buildFromMeta now0 m)) := by
  constructor
  · exact claim_C2_amended.1 now0 goodSummary
      [("1", .jobj [("uid", .jstr "42")])] [("uid", .jstr "42")] rfl rfl rfl rfl
  · obtain ⟨m, hm⟩ : ∃ m, parse_pubmed_article rootDupIds = Except.ok m := ⟨_, rfl⟩
    exact ⟨m, hm, claim_C2_amended.2 now0 rootDupIds m hm⟩

/-- Field inversion of `from_esummary`: every article it returns carries
source kind "pubmed" and its external id equals its pmid. -/
theorem from_esummary_fields (now : DateTime) (sd : List (String × PyVal))
    (a : PubMedArticle) (h : from_esummary now sd = .ok a) :
    a.source_type = "pubmed" ∧ a.source_id = a.pmid := by
  unfold from_esummary at h
  repeat' split at h
  all_goals first
    | (injection h with h2; subst h2; exact ⟨rfl, rfl⟩)
    | (injection h)

/-- Field inversion of `from_pymed_article`: every article it returns carries
source kind "pubmed" and its external id equals its pmid. -/
theorem from_pymed_fields (now : DateTime) (inp : PymedInput)
    (a : PubMedArticle) (h : from_pymed_article now inp = .ok a) :
    a.source_type = "pubmed" ∧ a.source_id = a.pmid := by
  unfold from_pymed_article at h
  repeat' split at h
  all_goals first
    | (injection h with h2; subst h2; exact ⟨rfl, rfl⟩)
    | (injection h)

/-- Field inversion of `from_xml`: every article it returns carries source
kind "pubmed", its external id equals its pmid, and pmid/title/abstract are
the parser's extracted strings (whose default is the empty string). -/
theorem from_xml_fields (now : DateTime) (root : XElem) (a : PubMedArticle)
    (h : from_xml now root = .ok a) :
    a.source_type = "pubmed" ∧ a.source_id = a.pmid ∧
    ∃ m, parse_pubmed_article root = .ok m ∧
      a.pmid = .jstr m.pmid ∧ a.title = .jstr m.title ∧
      a.abstract = .jstr m.abstract := by
  unfold from_xml at h
  cases hp : parse_pubmed_article root with
  | error e => rw [hp] at h; cases h
  | ok m =>
      rw [hp] at h
      injection h with h2
      subst h2
      exact ⟨rfl, rfl, m, rfl, rfl, rfl, rfl⟩

/-- Claim C3 (counterexample): a citation document with the wrapper and the
required sub-blocks but no PMID element yields an Article whose external id
is the EMPTY string, not a non-empty "unavailable"-style sentinel; its
title/abstract likewise default to the empty string. -/
theorem claim_C3_counterexample :
    (from_xml now0 rootNoPmid).map (fun a => a.pmid) = .ok (.jstr "") ∧
    (from_xml now0 rootNoPmid).map (fun a => a.title) = .ok (.jstr "") ∧
    ("" : String).isEmpty = true :=
  ⟨rfl, rfl, rfl⟩

/-- Claim C3 (amended): every Article produced by the three entry points has
the non-empty source kind "pubmed" and an external id equal to its pmid
field; the summary constructor defaults pmid and title to the non-empty
sentinels "No PMID available"/"No title available" when the fields are
absent, while the citation (XML) constructor takes the parser's extracted
strings, which default to the EMPTY string (not a sentinel) when the
corresponding node is missing. -/
theorem claim_C3_amended :
    (∀ (now : DateTime) (root : XElem) (a : PubMedArticle),
        from_xml now root = .ok a →
        a.source_type = "pubmed" ∧ a.source_id = a.pmid ∧
        ∃ m, parse_pubmed_article root = .ok m ∧ a.pmid = .jstr m.pmid ∧
          a.title = .jstr m.title ∧ a.abstract = .jstr m.abstract) ∧
    (∀ (now : DateTime) (sd : List (String × PyVal)) (a : PubMedArticle),
        from_esummary now sd = .ok a →
        a.source_type = "pubmed" ∧ a.source_id = a.pmid) ∧
    (∀ (now : DateTime) (sd resFields afields : List (String × PyVal))
        (a : PubMedArticle),
        dictGet sd "result" (.jobj []) = .jobj resFields →
        (resFields.map (fun p => p.2)).head? = some (.jobj afields) →
        from_esummary now sd = .ok a →
        a.pmid = dictGet afields "uid" (.jstr "No PMID available") ∧
        a.title = dictGet afields "title" (.jstr "No title available")) ∧
    (∀ (now : DateTime) (inp : PymedInput) (a : PubMedArticle),
        from_pymed_article now inp = .ok a →
        a.source_type = "pubmed" ∧ a.source_id = a.pmid) := by
  refine ⟨from_xml_fields, from_esummary_fields, ?_, from_pymed_fields⟩
  intro now sd resFields afields a h1 h2 h
  unfold from_esummary at h
  rw [h1] at h
  dsimp only at h
  rw [h2] at h
  dsimp only at h
  repeat' split at h
  all_goals first
    | (injection h with hx; subst hx; exact ⟨rfl, rfl⟩)
    | (injection h)

/-- Claim C3 (witness): the amended invariants instantiated on a concrete
citation document and a concrete summary payload. -/
theorem claim_C3_witness :
    (∃ a, from_xml now0 rootDupIds = Except.ok a ∧ a.source_type = "pubmed") ∧
    (∃ a, from_esummary now0 goodSummary = Except.ok a ∧
        a.pmid = PyVal.jstr "42") := by
  constructor
  · obtain ⟨a, ha⟩ : ∃ a, from_xml now0 rootDupIds = Except.ok a := ⟨_, rfl⟩
    exact ⟨a, ha, (claim_C3_amended.1 now0 rootDupIds a ha).1⟩
  · obtain ⟨a, ha⟩ : ∃ a, from_esummary now0 goodSummary = Except.ok a := ⟨_, rfl⟩
    have hp := (claim_C3_amended.2.2.1 now0 goodSummary
      [("1", .jobj [("uid", .jstr "42")])] [("uid", .jstr "42")] a
      rfl rfl ha).1
    exact ⟨a, ha, by rw [hp]; rfl⟩

/-- Cons step of the last-occurrence selector when the head matches the
identifier type: the head's value becomes the new fallback. -/
theorem lastTypeD_cons_pos (ty t : String) (v : Option String)
    (rest : List (String × Option String)) (dflt : Option String)
    (h : (t == ty) = true) :
    lastTypeD ty ((t, v) :: rest) dflt = lastTypeD ty rest v := by
  unfold lastTypeD
  rw [List.filter_cons]
  simp only [h, if_true]
  cases hf : rest.filter (fun p => p.1 == ty) with
  | nil => simp
  | cons b bs => simp [List.getLast?_cons_cons, List.getLast?_cons]

/-- Cons step of the last-occurrence selector when the head does not match
the identifier type: the head is ignored. -/
theorem lastTypeD_cons_neg (ty t : String) (v : Option String)
    (rest : List (String × Option String)) (dflt : Option String)
    (h : (t == ty) = false) :
    lastTypeD ty ((t, v) :: rest) dflt = lastTypeD ty rest dflt := by
  unfold lastTypeD
  rw [List.filter_cons]
  simp only [h]
  simp

/-- Loop characterization: the sequential assignment scan of the reference
identifier pairs computes, per type, the last matching occurrence with the
accumulator as fallback. -/
theorem scanIds_eq (pairs : List (String × Option String)) :
    ∀ p d c : Option String,
      scanIds pairs (p, d, c) =
        (lastTypeD "pubmed" pairs p, lastTypeD "doi" pairs d,
         lastTypeD "pmc" pairs c) := by
  induction pairs with
  | nil => intro p d c; simp [scanIds, lastTypeD]
  | cons hd tl ih =>
      intro p d c
      obtain ⟨t, v⟩ := hd
      by_cases h1 : t = "pubmed"
      · subst h1
        rw [show scanIds (("pubmed", v) :: tl) (p, d, c) = scanIds tl (v, d, c)
              from rfl]
        rw [ih]
        rw [lastTypeD_cons_pos _ _ _ _ _ (by decide),
            lastTypeD_cons_neg _ _ _ _ _ (by decide),
            lastTypeD_cons_neg _ _ _ _ _ (by decide)]
      · by_cases h2 : t = "doi"
        · subst h2
          rw [show scanIds (("doi", v) :: tl) (p, d, c) = scanIds tl (p, v, c)
                from rfl]
          rw [ih]
          rw [lastTypeD_cons_neg _ _ _ _ _ (by decide),
              lastTypeD_cons_pos _ _ _ _ _ (by decide),
              lastTypeD_cons_neg _ _ _ _ _ (by decide)]
        · by_cases h3 : t = "pmc"
          · subst h3
            rw [show scanIds (("pmc", v) :: tl) (p, d, c) = scanIds tl (p, d, v)
                  from rfl]
            rw [ih]
            rw [lastTypeD_cons_neg _ _ _ _ _ (by decide),
                lastTypeD_cons_neg _ _ _ _ _ (by decide),
                lastTypeD_cons_pos _ _ _ _ _ (by decide)]
          · have e1 : (t == "pubmed") = false := by simp [h1]
            have e2 : (t == "doi") = false := by simp [h2]
            have e3 : (t == "pmc") = false := by simp [h3]
            rw [show scanIds ((t, v) :: tl) (p, d, c) =
                  (if t == "pubmed" then scanIds tl (v, d, c)
                   else if t == "doi" then scanIds tl (p, v, c)
                   else if t == "pmc" then scanIds tl (p, d, v)
                   else scanIds tl (p, d, c)) from rfl]
            rw [e1, e2, e3]
            simp only [if_false, Bool.false_eq_true]
            rw [ih]
            rw [lastTypeD_cons_neg _ _ _ _ _ e1,
                lastTypeD_cons_neg _ _ _ _ _ e2,
                lastTypeD_cons_neg _ _ _ _ _ e3]

/-- Claim C6: for every reference block, the extracted pmid, DOI and pmc id
are exactly the last occurrences of the identifier types "pubmed", "doi" and
"pmc" in the reference's ordered identifier list; unmatched identifier types
are ignored and at most one value is kept per type. -/
theorem claim_C6_theorem (ref_elem : XElem) :
    parseReference ref_elem =
      { citation := getText (findChild ref_elem "Citation") ""
        pmid := lastOfType "pubmed" (refIdPairs ref_elem)
        doi := lastOfType "doi" (refIdPairs ref_elem)
        pmc_id := lastOfType "pmc" (refIdPairs ref_elem) } := by
  unfold parseReference lastOfType
  rw [scanIds_eq]

/-- Distribution of key membership over dict concatenation. -/
theorem hasKey_append (l1 l2 : List (String × PyVal)) (k : String) :
    hasKey (l1 ++ l2) k = (hasKey l1 k || hasKey l2 k) := by
  simp [hasKey, List.any_append]

/-- Key membership of a conditional dict entry. -/
theorem any_optEntry (b : Bool) (k k2 : String) (v : PyVal) :
    ((optEntry b k v).any fun p => p.1 == k2) = (b && (k == k2)) := by
  cases b <;> simp [optEntry]

/-- Claim C7 (counterexample): the serialized form of an Article built from a
summary payload with no structured author list does NOT contain the
`author_details` field at all (rather than containing it as an empty
container), although the base field `title` is present. -/
theorem claim_C7_counterexample :
    (from_esummary now0 goodSummary).map
        (fun a => hasKey a.to_dict "author_details") = .ok false ∧
    (from_esummary now0 goodSummary).map
        (fun a => hasKey a.to_dict "title") = .ok true :=
  ⟨rfl, rfl⟩

/-- Claim C7 (amended): for every Article, the serialized dictionary always
contains the base fields and the flat PubMed scalar fields, with the
publication date rendered as an ISO-8601 string; each extended field
(author_details, journal_details, dates, mesh_headings, grants, references,
chemicals) is present exactly when its value is truthy (a nonempty container
or a present object) and is OMITTED, not rendered as an empty container,
when the source shape lacked it. -/
theorem claim_C7_amended (a : PubMedArticle) :
    hasKey a.to_dict "title" = true ∧
    hasKey a.to_dict "abstract" = true ∧
    hasKey a.to_dict "authors" = true ∧
    hasKey a.to_dict "doi" = true ∧
    hasKey a.to_dict "source_id" = true ∧
    hasKey a.to_dict "source_type" = true ∧
    hasKey a.to_dict "published_date" = true ∧
    hasKey a.to_dict "keywords" = true ∧
    hasKey a.to_dict "related_dois" = true ∧
    hasKey a.to_dict "pmid" = true ∧
    hasKey a.to_dict "journal" = true ∧
    hasKey a.to_dict "volume" = true ∧
    hasKey a.to_dict "issue" = true ∧
    hasKey a.to_dict "pages" = true ∧
    hasKey a.to_dict "pubtype" = true ∧
    hasKey a.to_dict "author_details" = !a.author_details.isEmpty ∧
    hasKey a.to_dict "journal_details" = a.journal_details.isSome ∧
    hasKey a.to_dict "dates" = a.dates.isSome ∧
    hasKey a.to_dict "mesh_headings" = !a.mesh_headings.isEmpty ∧
    hasKey a.to_dict "grants" = !a.grants.isEmpty ∧
    hasKey a.to_dict "references" = !a.references.isEmpty ∧
    hasKey a.to_dict "chemicals" = !a.chemicals.isEmpty ∧
    dictLookup a.to_dict "published_date" =
      some (.jstr (isoformat a.published_date)) := by
  refine ⟨rfl, rfl, rfl, rfl, rfl, rfl, rfl, rfl, rfl, rfl, rfl, rfl, rfl, rfl,
          rfl, ?_, ?_, ?_, ?_, ?_, ?_, ?_, rfl⟩
  all_goals
    simp [PubMedArticle.to_dict, BaseArticle.to_dict, hasKey_append,
          any_optEntry, hasKey]

/-- Fold invariant of the batch loop: the lengths of the result and failed
lists always sum to the initial lengths plus the number of inputs. -/
theorem sap_foldl_len (c : ClientOracle) (l : List PubMedArticle) :
    ∀ (res : List (List (String × PyVal))) (fail : List PyVal),
      (l.foldl (sapStep c) (res, fail)).1.length +
        (l.foldl (sapStep c) (res, fail)).2.length =
      res.length + fail.length + l.length := by
  induction l with
  | nil => intro res fail; simp
  | cons hd tl ih =>
      intro res fail
      simp only [List.foldl_cons]
      cases h : processOne c hd.pmid with
      | some md =>
          rw [show sapStep c (res, fail) hd = (res ++ [md], fail) by
            simp [sapStep, h]]
          rw [ih]
          simp
          omega
      | none =>
          rw [show sapStep c (res, fail) hd = (res, fail ++ [hd.pmid]) by
            simp [sapStep, h]]
          rw [ih]
          simp
          omega

/-- Fold invariant of the batch loop: the failed-id list is exactly the ids
of the inputs whose per-article processing did not succeed, in order. -/
theorem sap_foldl_failed (c : ClientOracle) (l : List PubMedArticle) :
    ∀ (res : List (List (String × PyVal))) (fail : List PyVal),
      (l.foldl (sapStep c) (res, fail)).2 =
        fail ++ (l.filter (fun art => (processOne c art.pmid).isNone)).map
          (fun art => art.pmid) := by
  induction l with
  | nil => intro res fail; simp
  | cons hd tl ih =>
      intro res fail
      simp only [List.foldl_cons, List.filter_cons]
      cases h : processOne c hd.pmid with
      | some md =>
          rw [show sapStep c (res, fail) hd = (res ++ [md], fail) by
            simp [sapStep, h]]
          rw [ih]
          simp [h]
      | none =>
          rw [show sapStep c (res, fail) hd = (res, fail ++ [hd.pmid]) by
            simp [sapStep, h]]
          rw [ih]
          simp [h]

/-- Claim C8: for every batch whose initial search returned N articles, the
persisted aggregate satisfies successfully_processed + failed_processing = N
and failed_pmids lists exactly the ids that were not successfully processed;
the per-article loop is a total function (each per-id exception is caught by
the surrounding handler, never propagated).  In particular, the two-id batch
where A's citation fetch succeeds and B's yields nothing reports 1 success,
1 failure and failed_pmids = ["B"]. -/
theorem claim_C8_theorem :
    (∀ (c : ClientOracle) (articles : List PubMedArticle),
      (search_and_process c articles).successfully_processed +
          (search_and_process c articles).failed_processing =
        articles.length ∧
      (search_and_process c articles).failed_pmids =
        (articles.filter (fun art => (processOne c art.pmid).isNone)).map
          (fun art => art.pmid)) ∧
    search_and_process ctxAB [mkTestArticle "A", mkTestArticle "B"] =
      { total_articles_found := 2, successfully_processed := 1,
        failed_processing := 1, failed_pmids := [.jstr "B"],
        articles := [(mkTestArticle "A").to_dict] } := by
  refine ⟨fun c articles => ⟨?_, ?_⟩, rfl⟩
  · have h := sap_foldl_len c articles [] []
    simpa [search_and_process] using h
  · have h := sap_foldl_failed c articles [] []
    simpa [search_and_process] using h
